import Mathlib

/-!
Shallow embedding of the ETF trading simulator
(`src/etf_trading/models.py`, `src/etf_trading/simulator.py`, and the
variant `buy` from `NEW ETF/src/etf_trading/simulator.py`).

Modelling conventions:
* Python floats are modelled as exact rationals (ℚ); the literal
  slippage/fee constant 0.001 becomes 1/1000.
* Python dicts are association lists with Python's update semantics
  (update in place if the key exists, else append); the order queue holds
  position ids, so a mutation through the orders dict is seen by the
  queue entry for the same id, exactly as Python's object aliasing does
  for distinct position ids.
* `datetime.now()` becomes an explicit `now : ℚ` argument to each
  operation; `timedelta` comparison becomes rational comparison.
* A Python exception (KeyError, ZeroDivisionError, ValueError) is
  modelled as `none` / `Except.error`; state changes made before the
  raise are not modelled, no claim depends on them.
-/

namespace ETF

/-- Association-list lookup, modelling Python `dict.get` / `d[k]`. -/
def lookupKV {κ α : Type} [DecidableEq κ] : List (κ × α) → κ → Option α
  | [], _ => none
  | (k, v) :: rest, key => if k = key then some v else lookupKV rest key

/-- Association-list insert-or-update, modelling Python `d[k] = v`. -/
def insertKV {κ α : Type} [DecidableEq κ] : List (κ × α) → κ → α → List (κ × α)
  | [], key, val => [(key, val)]
  | (k, v) :: rest, key, val =>
      if k = key then (k, val) :: rest else (k, v) :: insertKV rest key val

/-- `OrderType` enum from models.py. -/
inductive OrderType where
  | BUY
  | SELL
  | CANCEL
  | REBALANCE
deriving DecidableEq

/-- `OrderStatus` enum from models.py. -/
inductive OrderStatus where
  | PENDING
  | FILLED
  | PARTIALLY_FILLED
  | CANCELLED
  | REJECTED
deriving DecidableEq

/-- The `.value` string of an `OrderStatus`, as in the Python enum. -/
def OrderStatus.value : OrderStatus → String
  | .PENDING => "PENDING"
  | .FILLED => "FILLED"
  | .PARTIALLY_FILLED => "PARTIALLY_FILLED"
  | .CANCELLED => "CANCELLED"
  | .REJECTED => "REJECTED"

/-- `Asset` dataclass from models.py. -/
structure Asset where
  symbol : String
  quantity : ℚ
  price_last_rebalance : ℚ
  current_price : ℚ
deriving DecidableEq

/-- `Index` dataclass from models.py (datetimes as rational instants). -/
structure Index where
  id : String
  assets : List Asset
  last_rebalance_time : ℚ
  creation_time : ℚ
deriving DecidableEq

/-- `Index.calculate_nav` from models.py. -/
def Index.calculate_nav (idx : Index) : ℚ :=
  (idx.assets.map (fun a => a.quantity * a.current_price)).sum

/-- `Index.calculate_rebalance_cost` from models.py: iterates over the
index's own assets, with `new_weights.get(symbol, 0)` defaulting absent
symbols to weight 0, fee 0.1%. -/
def Index.calculate_rebalance_cost (idx : Index) (new_weights : List (String × ℚ)) : ℚ :=
  idx.assets.foldl
    (fun acc a =>
      acc + |idx.calculate_nav * ((lookupKV new_weights a.symbol).getD 0)
              - a.quantity * a.current_price| * (1 / 1000))
    0

/-- `Order` dataclass from models.py. -/
structure Order where
  position_id : Nat
  index_id : String
  order_type : OrderType
  quantity : ℚ
  price : ℚ
  timestamp : ℚ
  status : OrderStatus := .PENDING
  filled_quantity : ℚ := 0
  filled_price : ℚ := 0
  loss : ℚ := 0
deriving DecidableEq

/-- `CancelResult` dataclass from models.py. -/
structure CancelResult where
  success : Bool
  message : String
  loss : ℚ := 0
deriving DecidableEq

/-- `FillReport` dataclass from models.py. -/
structure FillReport where
  position_id : Nat
  fill_percentage : ℚ
  loss : ℚ
  timestamp : ℚ
deriving DecidableEq

/-- `RebalanceReport` dataclass from models.py. -/
structure RebalanceReport where
  index_id : String
  old_weights : List (String × ℚ)
  new_weights : List (String × ℚ)
  total_cost : ℚ
  timestamp : ℚ
deriving DecidableEq

/-- One per-asset liquidity entry: the `{'max_fillable': _, 'price_impact': _}`
dict used by the simulator. -/
structure LiquidityInfo where
  max_fillable : ℚ
  price_impact : ℚ
deriving DecidableEq

/-- `TradingSimulator.__init__` state from simulator.py. -/
structure TradingSimulator where
  indices : List (String × Index)
  orders : List (Nat × Order)
  order_queue : List Nat
  rate_limit_window : ℚ
  rate_limit_orders : Nat
  min_order_value : ℚ
  last_execution_time : ℚ
  order_count_in_window : Nat
  liquidity_info : List (String × List (String × LiquidityInfo))
  retainer : List (String × ℚ)
deriving DecidableEq

/-- A fresh simulator created at instant `now` (the `__init__` defaults). -/
def TradingSimulator.init (now : ℚ) : TradingSimulator where
  indices := []
  orders := []
  order_queue := []
  rate_limit_window := 10
  rate_limit_orders := 100
  min_order_value := 5
  last_execution_time := now
  order_count_in_window := 0
  liquidity_info := []
  retainer := []

/-- `TradingSimulator.create_index`. -/
def create_index (now : ℚ) (s : TradingSimulator) (index_id : String)
    (assets : List (String × ℚ × ℚ × ℚ)) : TradingSimulator × Index :=
  let index_assets := assets.map (fun t => Asset.mk t.1 t.2.1 t.2.2.1 t.2.2.2)
  let idx : Index := { id := index_id, assets := index_assets,
                       last_rebalance_time := now, creation_time := now }
  ({ s with indices := insertKV s.indices index_id idx,
            retainer := insertKV s.retainer index_id 0 }, idx)

/-- `TradingSimulator.set_liquidity_info`. -/
def set_liquidity_info (s : TradingSimulator) (index_id : String)
    (liq : List (String × LiquidityInfo)) : TradingSimulator :=
  { s with liquidity_info := insertKV s.liquidity_info index_id liq }

/-- `TradingSimulator._check_rate_limit`: reset the window when strictly
more than `rate_limit_window` has elapsed; deny without incrementing when
the counter is at capacity; otherwise increment and admit. -/
def check_rate_limit (now : ℚ) (s : TradingSimulator) : Bool × TradingSimulator :=
  let s1 := if now - s.last_execution_time > s.rate_limit_window then
              { s with order_count_in_window := 0, last_execution_time := now }
            else s
  if s1.order_count_in_window ≥ s1.rate_limit_orders then (false, s1)
  else (true, { s1 with order_count_in_window := s1.order_count_in_window + 1 })

/-- Inner loop of `TradingSimulator._calculate_fillable_amount`: fold the
running minimum fill fraction over the index's assets; a constrained
asset whose notional exceeds its cap contributes `max_fillable / notional`;
`none` models the ZeroDivisionError on a zero notional in that branch. -/
def fillableAux (liq : List (String × LiquidityInfo)) (quantity : ℚ) :
    List Asset → ℚ → Option ℚ
  | [], m => some m
  | a :: rest, m =>
      match lookupKV liq a.symbol with
      | none => fillableAux liq quantity rest m
      | some info =>
          let notional := quantity * a.current_price * a.quantity
          if notional > info.max_fillable then
            if notional = 0 then none
            else fillableAux liq quantity rest (min m (info.max_fillable / notional))
          else fillableAux liq quantity rest m

/-- `TradingSimulator._calculate_fillable_amount`: `none` models the
KeyError on `self.indices[index_id]` when constraints exist for an
unknown index. -/
def calculate_fillable_amount (s : TradingSimulator) (index_id : String)
    (quantity : ℚ) : Option ℚ :=
  match lookupKV s.liquidity_info index_id with
  | none => some quantity
  | some liq =>
      match lookupKV s.indices index_id with
      | none => none
      | some idx =>
          (fillableAux liq quantity idx.assets 1).map (fun m => quantity * m)

/-- `TradingSimulator.buy` (canonical `src/etf_trading/simulator.py`):
reject on `quantity <= 0` (still storing the order), reject on rate-limit
denial (still storing), otherwise store a PENDING order and enqueue it.
This variant performs no minimum-order-value check and never touches
`self.indices`. -/
def buy (now : ℚ) (s : TradingSimulator) (position_id : Nat) (index_id : String)
    (quantity index_price : ℚ) : TradingSimulator × Order :=
  if quantity ≤ 0 then
    let o : Order := { position_id := position_id, index_id := index_id,
                       order_type := .BUY, quantity := quantity,
                       price := index_price, timestamp := now,
                       status := .REJECTED }
    ({ s with orders := insertKV s.orders position_id o }, o)
  else
    match check_rate_limit now s with
    | (false, s1) =>
        let o : Order := { position_id := position_id, index_id := index_id,
                           order_type := .BUY, quantity := quantity,
                           price := index_price, timestamp := now,
                           status := .REJECTED }
        ({ s1 with orders := insertKV s1.orders position_id o }, o)
    | (true, s1) =>
        let o : Order := { position_id := position_id, index_id := index_id,
                           order_type := .BUY, quantity := quantity,
                           price := index_price, timestamp := now,
                           status := .PENDING }
        ({ s1 with orders := insertKV s1.orders position_id o,
                   order_queue := s1.order_queue ++ [position_id] }, o)

/-- `TradingSimulator.buy` from `NEW ETF/src/etf_trading/simulator.py`:
same first two rejections (without storing the order), then
`self.indices[index_id]` (`none` models the KeyError on an unknown index)
and a minimum-order-value rejection when
`quantity * index_price < len(index.assets) * self.min_order_value`. -/
def buyNew (now : ℚ) (s : TradingSimulator) (position_id : Nat) (index_id : String)
    (quantity index_price : ℚ) : Option (TradingSimulator × Order) :=
  if quantity ≤ 0 then
    some (s, { position_id := position_id, index_id := index_id,
               order_type := .BUY, quantity := quantity, price := index_price,
               timestamp := now, status := .REJECTED })
  else
    match check_rate_limit now s with
    | (false, s1) =>
        some (s1, { position_id := position_id, index_id := index_id,
                    order_type := .BUY, quantity := quantity,
                    price := index_price, timestamp := now,
                    status := .REJECTED })
    | (true, s1) =>
        match lookupKV s1.indices index_id with
        | none => none
        | some idx =>
            if quantity * index_price < (idx.assets.length : ℚ) * s1.min_order_value then
              some (s1, { position_id := position_id, index_id := index_id,
                          order_type := .BUY, quantity := quantity,
                          price := index_price, timestamp := now,
                          status := .REJECTED })
            else
              let o : Order := { position_id := position_id, index_id := index_id,
                                 order_type := .BUY, quantity := quantity,
                                 price := index_price, timestamp := now,
                                 status := .PENDING }
              some ({ s1 with orders := insertKV s1.orders position_id o,
                              order_queue := s1.order_queue ++ [position_id] }, o)

/-- `TradingSimulator.get_fill_report`: `Except.error` models the
unguarded float division `filled_quantity / quantity` raising
ZeroDivisionError when the stored order has `quantity == 0`. -/
def get_fill_report (now : ℚ) (s : TradingSimulator) (position_id : Nat) :
    Except String (Option FillReport) :=
  match lookupKV s.orders position_id with
  | none => .ok none
  | some o =>
      if o.quantity = 0 then .error "ZeroDivisionError"
      else .ok (some { position_id := position_id,
                       fill_percentage := o.filled_quantity / o.quantity * 100,
                       loss := o.loss, timestamp := now })

/-- `TradingSimulator.cancel`. -/
def cancel (s : TradingSimulator) (position_id : Nat) :
    TradingSimulator × CancelResult :=
  match lookupKV s.orders position_id with
  | none => (s, { success := false, message := "Order not found" })
  | some o =>
      if o.status = .FILLED ∨ o.status = .CANCELLED then
        (s, { success := false, message := "Order already " ++ o.status.value })
      else
        let loss := if o.status = .PARTIALLY_FILLED then
                      |o.filled_quantity * (o.price - o.filled_price)|
                    else 0
        ({ s with orders := insertKV s.orders position_id { o with status := .CANCELLED } },
         { success := true, message := "Order cancelled", loss := loss })

/-- `TradingSimulator._execute_order` (canonical variant), acting on the
order stored under `position_id` (the queue aliases orders by id): a BUY
at window capacity is marked REJECTED; otherwise fill quantity/price,
status, loss, and the index retainer are updated. `none` models a
KeyError (missing order object, missing index or retainer entry) or the
ZeroDivisionError of `fillable_quantity / order.quantity`. -/
def execute_order (s : TradingSimulator) (position_id : Nat) :
    Option TradingSimulator :=
  match lookupKV s.orders position_id with
  | none => none
  | some o =>
      if o.order_type = .BUY then
        if s.order_count_in_window ≥ s.rate_limit_orders then
          some { s with orders := insertKV s.orders position_id { o with status := .REJECTED } }
        else
          match calculate_fillable_amount s o.index_id o.quantity with
          | none => none
          | some fillable =>
              if o.quantity = 0 then none
              else
                let fill_rate := fillable / o.quantity
                let fprice := o.price * (1 + 1 / 1000)
                let o1 : Order :=
                  { o with filled_quantity := fillable, filled_price := fprice,
                           status := if fill_rate ≥ 99 / 100 then .FILLED
                                     else .PARTIALLY_FILLED,
                           loss := |fillable * (o.price - fprice)| }
                match lookupKV s.indices o.index_id, lookupKV s.retainer o.index_id with
                | some _, some ret =>
                    some { s with
                           orders := insertKV s.orders position_id o1,
                           retainer := insertKV s.retainer o.index_id
                             (ret + (o.quantity * o.price - fillable * fprice)) }
                | _, _ => none
      else some s

/-- The liquidity-impact score used by `process_queue`:
`sum(liq.get(symbol, {}).get('price_impact', 0) * current_price)` over
the order's index assets. -/
def liquidityImpact (liq : List (String × LiquidityInfo)) (idx : Index) : ℚ :=
  (idx.assets.map (fun a =>
    (match lookupKV liq a.symbol with
     | some info => info.price_impact
     | none => 0) * a.current_price)).sum

/-- Impact computation loop of `process_queue`; `none` models the
KeyError of `self.indices[order.index_id]` for an order whose index is
unknown (or a dangling queue id). -/
def computeImpacts (s : TradingSimulator) : List Nat → Option (List (ℚ × Nat))
  | [] => some []
  | pid :: rest =>
      match lookupKV s.orders pid with
      | none => none
      | some o =>
          match lookupKV s.indices o.index_id with
          | none => none
          | some idx =>
              let liq := (lookupKV s.liquidity_info o.index_id).getD []
              (computeImpacts s rest).map (fun l => (liquidityImpact liq idx, o.position_id) :: l)

/-- Stable insertion (a later element goes after all existing elements
with an impact less than or equal to its own), modelling Python's stable
`sort(key=lambda x: x[0])`. -/
def insertByImpact (x : ℚ × Nat) : List (ℚ × Nat) → List (ℚ × Nat)
  | [] => [x]
  | y :: ys => if y.1 ≤ x.1 then y :: insertByImpact x ys else x :: y :: ys

/-- Stable sort by ascending liquidity impact. -/
def sortByImpact (l : List (ℚ × Nat)) : List (ℚ × Nat) :=
  l.foldl (fun acc x => insertByImpact x acc) []

/-- Execution loop of `process_queue`: the first `available_slots` sorted
orders are executed (incrementing the window counter after each), the
rest are forced to PENDING status and collected as remaining. -/
def execLoop (slots : Nat) :
    TradingSimulator → Nat → List (ℚ × Nat) → List Nat →
    Option (TradingSimulator × List Nat)
  | s, _, [], rem => some (s, rem.reverse)
  | s, i, (_, pid) :: rest, rem =>
      if i < slots then
        match execute_order s pid with
        | none => none
        | some s1 =>
            execLoop slots
              { s1 with order_count_in_window := s1.order_count_in_window + 1 }
              (i + 1) rest rem
      else
        match lookupKV s.orders pid with
        | none => none
        | some o =>
            execLoop slots
              { s with orders := insertKV s.orders pid { o with status := .PENDING } }
              (i + 1) rest (pid :: rem)

/-- `TradingSimulator.process_queue` (canonical variant): early return on
an empty queue; window reset; `available_slots = rate_limit_orders -
order_count_in_window` (clamped at 0); stable sort of the queued orders
by liquidity impact; execute up to the slot budget; re-queue the
remaining orders whose status is PENDING or REJECTED. -/
def process_queue (now : ℚ) (s : TradingSimulator) : Option TradingSimulator :=
  if s.order_queue = [] then some s
  else
    let s1 := if now - s.last_execution_time > s.rate_limit_window then
                { s with order_count_in_window := 0, last_execution_time := now }
              else s
    let slots := s1.rate_limit_orders - s1.order_count_in_window
    let all_orders := s1.order_queue
    let s2 := { s1 with order_queue := [] }
    match computeImpacts s2 all_orders with
    | none => none
    | some with_impact =>
        match execLoop slots s2 0 (sortByImpact with_impact) [] with
        | none => none
        | some (s3, rem) =>
            some { s3 with order_queue :=
                     rem.filter (fun pid =>
                       match lookupKV s3.orders pid with
                       | some o => o.status = .PENDING ∨ o.status = .REJECTED
                       | none => false) }

/-- Per-asset update of the `rebalance` loop: an asset named in
`new_weights` gets `quantity = nav * weight / current_price` and a
refreshed `price_last_rebalance`; others are untouched. -/
def rebalanceAsset (nav : ℚ) (new_weights : List (String × ℚ)) (a : Asset) : Asset :=
  match lookupKV new_weights a.symbol with
  | some w => { a with quantity := nav * w / a.current_price,
                       price_last_rebalance := a.current_price }
  | none => a

/-- `TradingSimulator.rebalance`: `none` models the ValueError on an
unknown index, the ZeroDivisionError of the `old_weights` comprehension
when the index has assets and zero NAV, and the ZeroDivisionError of
`target_value / asset.current_price` for a reweighted asset with zero
price. The pre-rebalance NAV is used for old weights, cost, and targets. -/
def rebalance (now : ℚ) (s : TradingSimulator) (index_id : String)
    (new_weights : List (String × ℚ)) :
    Option (TradingSimulator × RebalanceReport) :=
  match lookupKV s.indices index_id with
  | none => none
  | some idx =>
      let nav := idx.calculate_nav
      if ¬ idx.assets.isEmpty ∧ nav = 0 then none
      else
        let old_weights := idx.assets.map (fun a =>
          (a.symbol, a.quantity * a.current_price / nav))
        let total_cost := idx.calculate_rebalance_cost new_weights
        if idx.assets.any (fun a =>
             (lookupKV new_weights a.symbol).isSome ∧ a.current_price = 0) then none
        else
          let assets1 := idx.assets.map (rebalanceAsset nav new_weights)
          let idx1 := { idx with assets := assets1, last_rebalance_time := now }
          some ({ s with indices := insertKV s.indices index_id idx1 },
                { index_id := index_id, old_weights := old_weights,
                  new_weights := new_weights, total_cost := total_cost,
                  timestamp := now })

/-! Helper lemmas. -/

theorem lookupKV_insert_self {κ α : Type} [DecidableEq κ] (l : List (κ × α)) (k : κ) (v : α) :
    lookupKV (insertKV l k v) k = some v := by
  induction l with
  | nil => simp [insertKV, lookupKV]
  | cons h t ih =>
      obtain ⟨k', v'⟩ := h
      by_cases hk : k' = k
      · simp [insertKV, lookupKV, hk]
      · simp [insertKV, lookupKV, hk, ih]

theorem foldl_add_sum {α : Type} (g : α → ℚ) :
    ∀ (l : List α) (c : ℚ), l.foldl (fun acc a => acc + g a) c = c + (l.map g).sum := by
  intro l
  induction l with
  | nil => intro c; simp
  | cons a t ih => intro c; simp [ih, add_assoc]

theorem check_rate_limit_admit (now : ℚ) (s : TradingSimulator)
    (hw : now - s.last_execution_time ≤ s.rate_limit_window)
    (hc : s.order_count_in_window < s.rate_limit_orders) :
    check_rate_limit now s =
      (true, { s with order_count_in_window := s.order_count_in_window + 1 }) := by
  simp [check_rate_limit, not_lt.mpr hw, not_le.mpr hc]

theorem check_rate_limit_deny (now : ℚ) (s : TradingSimulator)
    (hw : now - s.last_execution_time ≤ s.rate_limit_window)
    (hc : s.rate_limit_orders ≤ s.order_count_in_window) :
    check_rate_limit now s = (false, s) := by
  simp [check_rate_limit, not_lt.mpr hw, hc]

/-! Shared concrete fixtures used by several claims. -/

/-- A fresh simulator holding one index `IDX` with a single asset
`A` of quantity 1 and price 10. -/
def simIDX : TradingSimulator :=
  (create_index 0 (TradingSimulator.init 0) "IDX" [("A", 1, 10, 10)]).1

/-- Asset tuples of the spec's liquidity-gating example: quantities
(1, 2, 5), prices (10, 5, 2). -/
def exAssets : List (String × ℚ × ℚ × ℚ) :=
  [("A", 1, 10, 10), ("B", 2, 5, 5), ("C", 5, 2, 2)]

/-- Liquidity caps of the spec's example: A 2,000,000; B 1,000,000;
C 200,000. -/
def exLiq : List (String × LiquidityInfo) :=
  [("A", { max_fillable := 2000000, price_impact := 0 }),
   ("B", { max_fillable := 1000000, price_impact := 0 }),
   ("C", { max_fillable := 200000, price_impact := 0 })]

/-- The example index as created by `create_index`. -/
def exIndex : Index :=
  (create_index 0 (TradingSimulator.init 0) "ETF3" exAssets).2

/-- Simulator holding the example index with its liquidity constraints. -/
def exSim : TradingSimulator :=
  set_liquidity_info
    (create_index 0 (TradingSimulator.init 0) "ETF3" exAssets).1 "ETF3" exLiq

/-- Claim C1: the canonical `buy` is required to reject an order whose
notional `quantity * price` is below `min_order_value * asset_count`.
The code omits this check: at quantity 1, price 1 against a 1-asset index
(notional 1 below the minimum 5 * 1) the canonical `buy` returns a
PENDING order, while the NEW ETF variant of `buy` rejects the same
submission. -/
theorem C1_min_notional_not_enforced :
    (1 : ℚ) * 1 <
      simIDX.min_order_value *
        ((lookupKV simIDX.indices "IDX").elim 0 (fun i => (i.assets.length : ℚ))) ∧
    (buy 0 simIDX 1 "IDX" 1 1).2.status = OrderStatus.PENDING ∧
    (buy 0 simIDX 1 "IDX" 1 1).2.status ≠ OrderStatus.REJECTED ∧
    (buyNew 0 simIDX 1 "IDX" 1 1).map (fun p => p.2.status) =
      some OrderStatus.REJECTED := by
  norm_num +decide [buy, buyNew, check_rate_limit, simIDX, create_index,
    TradingSimulator.init, insertKV, lookupKV, Option.elim]

/-- Claim C2 counterexample: for the spec's liquidity-gating example
(quantities (1,2,5), prices (10,5,2), caps 2,000,000 / 1,000,000 /
200,000, order of 1,000,000 units), the computed fill fraction is 1/50
(fill_percentage 2), not the claimed 1/5 (fill_percentage 20); the
binding asset is still C, whose ratio 1/50 is strictly below the ratios
of A and B. -/
theorem C2_example_fill_fraction_is_two_percent :
    calculate_fillable_amount exSim "ETF3" 1000000 = some (1000000 * (1 / 50)) ∧
    calculate_fillable_amount exSim "ETF3" 1000000 ≠ some (1000000 * (1 / 5)) ∧
    (1 : ℚ) / 50 = 200000 / (1000000 * 2 * 5) ∧
    (1 : ℚ) / 50 < 2000000 / (1000000 * 10 * 1) ∧
    (1 : ℚ) / 50 < 1000000 / (1000000 * 5 * 2) := by
  norm_num +decide [calculate_fillable_amount, fillableAux, exSim, exLiq, exAssets,
    set_liquidity_info, create_index, TradingSimulator.init, insertKV, lookupKV,
    min_def]

/-- State after submitting order 1 (10 units at price 100) on `simIDX`
and cancelling it: the order is CANCELLED but still sits in the queue,
because `cancel` never removes it from `order_queue`. -/
def c3_after_cancel : TradingSimulator :=
  (cancel (buy 0 simIDX 1 "IDX" 10 100).1 1).1

/-- Claim C3: a CANCELLED order is required to be terminal and immutable,
but the stale queue entry left behind by `cancel` lets `process_queue`
re-execute the order: after buy, cancel, drain, order 1 moves from
CANCELLED to FILLED. -/
theorem C3_cancelled_order_mutated_by_drain :
    (lookupKV c3_after_cancel.orders 1).map Order.status =
      some OrderStatus.CANCELLED ∧
    (process_queue 0 c3_after_cancel).map
        (fun s => (lookupKV s.orders 1).map Order.status) =
      some (some OrderStatus.FILLED) := by
  norm_num +decide [c3_after_cancel, process_queue, cancel, buy, check_rate_limit,
    simIDX, create_index, TradingSimulator.init, insertKV, lookupKV, computeImpacts,
    liquidityImpact, sortByImpact, insertByImpact, execLoop, execute_order,
    calculate_fillable_amount, fillableAux, OrderStatus.value]

/-- Claim C4 counterexample: rebalancing `simIDX` (one asset `A` worth
10) with an empty `new_weights` map is claimed to cost 0 (no symbols
present), but `calculate_rebalance_cost` defaults the absent symbol's
weight to 0 and charges `|0 - 10| * 0.001 = 1/100`. -/
theorem C4_absent_symbol_contributes_cost :
    (rebalance 0 simIDX "IDX" []).map (fun p => p.2.total_cost) =
      some (1 / 100) ∧
    ((1 : ℚ) / 100) ≠ 0 := by
  norm_num +decide [rebalance, Index.calculate_rebalance_cost, Index.calculate_nav,
    rebalanceAsset, simIDX, create_index, TradingSimulator.init, insertKV, lookupKV]

/-- Claim C8: the rejection path of the canonical `buy` stores a
quantity-0 REJECTED order, and `get_fill_report` then performs the
unguarded division `filled_quantity / quantity`, raising
ZeroDivisionError; an unknown position id does return an absent report. -/
theorem C8_fill_report_divide_by_zero :
    (buy 0 (TradingSimulator.init 0) 1 "IDX" 0 10).2.status =
      OrderStatus.REJECTED ∧
    get_fill_report 0 (buy 0 (TradingSimulator.init 0) 1 "IDX" 0 10).1 1 =
      Except.error "ZeroDivisionError" ∧
    get_fill_report 0 (buy 0 (TradingSimulator.init 0) 1 "IDX" 0 10).1 2 =
      Except.ok none := by
  norm_num +decide [get_fill_report, buy, check_rate_limit, TradingSimulator.init,
    insertKV, lookupKV]

/-- Claim C9: submitting a buy against an unknown index id is required to
yield a REJECTED order and cause no later failure, but the canonical
`buy` returns a PENDING order (enqueueing it), and the subsequent
`process_queue` raises KeyError on `self.indices[order.index_id]`
(modelled as `none`). -/
theorem C9_unknown_index_not_rejected :
    (buy 0 (TradingSimulator.init 0) 1 "MISSING" 10 100).2.status =
      OrderStatus.PENDING ∧
    (buy 0 (TradingSimulator.init 0) 1 "MISSING" 10 100).2.status ≠
      OrderStatus.REJECTED ∧
    process_queue 0 (buy 0 (TradingSimulator.init 0) 1 "MISSING" 10 100).1 =
      none := by
  norm_num +decide [buy, check_rate_limit, TradingSimulator.init, process_queue,
    computeImpacts, insertKV, lookupKV]

/-- Claim C7: the full `cancel` contract. Unknown ids fail with
"Order not found" and leave the state unchanged; FILLED or CANCELLED
orders fail with "Order already <status>" and leave the state unchanged;
any other order has exactly its status set to CANCELLED, with reported
loss `|filled_quantity * (price - filled_price)|` when the prior status
was PARTIALLY_FILLED and 0 otherwise; a second cancel of the same order
returns success = false with no state change. -/
theorem C7_cancel_contract :
    (∀ (s : TradingSimulator) (pid : Nat), lookupKV s.orders pid = none →
       cancel s pid = (s, { success := false, message := "Order not found", loss := 0 })) ∧
    (∀ (s : TradingSimulator) (pid : Nat) (o : Order), lookupKV s.orders pid = some o →
       (o.status = OrderStatus.FILLED ∨ o.status = OrderStatus.CANCELLED) →
       cancel s pid = (s, { success := false,
                            message := "Order already " ++ o.status.value, loss := 0 })) ∧
    (∀ (s : TradingSimulator) (pid : Nat) (o : Order), lookupKV s.orders pid = some o →
       ¬(o.status = OrderStatus.FILLED ∨ o.status = OrderStatus.CANCELLED) →
       cancel s pid =
         ({ s with orders := insertKV s.orders pid { o with status := OrderStatus.CANCELLED } },
          { success := true, message := "Order cancelled",
            loss := if o.status = OrderStatus.PARTIALLY_FILLED then
                      |o.filled_quantity * (o.price - o.filled_price)| else 0 })) ∧
    (∀ (s : TradingSimulator) (pid : Nat) (o : Order), lookupKV s.orders pid = some o →
       ¬(o.status = OrderStatus.FILLED ∨ o.status = OrderStatus.CANCELLED) →
       cancel (cancel s pid).1 pid =
         ((cancel s pid).1,
          { success := false, message := "Order already CANCELLED", loss := 0 })) := by
  refine ⟨?_, ?_, ?_, ?_⟩
  · intro s pid h
    simp [cancel, h]
  · intro s pid o h hst
    simp [cancel, h, hst]
  · intro s pid o h hst
    simp [cancel, h, hst]
  · intro s pid o h hst
    have hfst : (cancel s pid).1 =
        { s with orders := insertKV s.orders pid { o with status := OrderStatus.CANCELLED } } := by
      simp [cancel, h, hst]
    have hlook : lookupKV (cancel s pid).1.orders pid =
        some { o with status := OrderStatus.CANCELLED } := by
      rw [hfst]
      exact lookupKV_insert_self s.orders pid { o with status := OrderStatus.CANCELLED }
    obtain ⟨t, ht⟩ : ∃ t, (cancel s pid).1 = t := ⟨_, rfl⟩
    rw [ht] at hlook ⊢
    simp [cancel, hlook, OrderStatus.value]

/-- A PARTIALLY_FILLED order matching the spec's cancellation example:
80 filled of 100 requested at price 1000, filled at 1001. -/
def c7_order : Order :=
  { position_id := 1, index_id := "IDX", order_type := OrderType.BUY, quantity := 100,
    price := 1000, timestamp := 0, status := OrderStatus.PARTIALLY_FILLED,
    filled_quantity := 80, filled_price := 1001 }

/-- Simulator holding only `c7_order` under position id 1. -/
def c7_sim : TradingSimulator :=
  { TradingSimulator.init 0 with orders := [(1, c7_order)] }

/-- Witness for C7: on a concrete PARTIALLY_FILLED order, cancel of an
unknown id fails, the first cancel succeeds with loss 80, and the second
cancel fails with no state change. -/
theorem C7_cancel_contract_witness :
    cancel c7_sim 2 = (c7_sim, { success := false, message := "Order not found", loss := 0 }) ∧
    (cancel c7_sim 1).2 = { success := true, message := "Order cancelled", loss := 80 } ∧
    cancel (cancel c7_sim 1).1 1 =
      ((cancel c7_sim 1).1,
       { success := false, message := "Order already CANCELLED", loss := 0 }) := by
  refine ⟨?_, ?_, ?_⟩
  · exact C7_cancel_contract.1 c7_sim 2
      (by norm_num [c7_sim, c7_order, TradingSimulator.init, lookupKV])
  · have h := C7_cancel_contract.2.2.1 c7_sim 1 c7_order
      (by norm_num [c7_sim, c7_order, TradingSimulator.init, lookupKV])
      (by norm_num +decide [c7_order])
    rw [h]
    norm_num +decide [c7_order, abs_of_nonpos]
  · exact C7_cancel_contract.2.2.2 c7_sim 1 c7_order
      (by norm_num [c7_sim, c7_order, TradingSimulator.init, lookupKV])
      (by norm_num +decide [c7_order])

/-- Claim C10: executing a BUY order below the window capacity whose
fillable amount is unconstrained (equal to the requested quantity)
changes the index retainer by exactly
`quantity * price - quantity * price * (1 + 0.001) = -0.001 * quantity *
price`, a strictly negative amount. -/
theorem C10_retainer_decreases :
    ∀ (s : TradingSimulator) (pid : Nat) (o : Order) (r0 : ℚ),
      lookupKV s.orders pid = some o →
      o.order_type = OrderType.BUY →
      s.order_count_in_window < s.rate_limit_orders →
      0 < o.quantity → 0 < o.price →
      calculate_fillable_amount s o.index_id o.quantity = some o.quantity →
      (lookupKV s.indices o.index_id).isSome →
      lookupKV s.retainer o.index_id = some r0 →
      (execute_order s pid).map (fun s1 => lookupKV s1.retainer o.index_id) =
          some (some (r0 - (1 / 1000) * (o.quantity * o.price))) ∧
        r0 - (1 / 1000) * (o.quantity * o.price) < r0 := by
  intro s pid o r0 ho htype hcnt hq hp hfill hidx hret
  obtain ⟨idx, hidxe⟩ := Option.isSome_iff_exists.mp hidx
  constructor
  · simp only [execute_order, ho, htype, if_true, not_le.mpr hcnt, if_false, hfill,
      hq.ne', hidxe, hret, ite_true, ite_false, reduceIte]
    simp [lookupKV_insert_self]
    ring
  · have hpos : 0 < (1 / 1000 : ℚ) * (o.quantity * o.price) := by positivity
    linarith

/-- Simulator for the C10 witness: index `IDX` (one asset worth 10),
no liquidity constraints, retainer 0, and a PENDING BUY order of 10
units at price 100 under position id 1. -/
def c10_sim : TradingSimulator :=
  (buy 0 simIDX 1 "IDX" 10 100).1

/-- Witness for C10: executing the concrete order drops the retainer of
`IDX` from 0 to -1 = -0.001 * 10 * 100. -/
theorem C10_retainer_decreases_witness :
    (execute_order c10_sim 1).map (fun s1 => lookupKV s1.retainer "IDX") =
        some (some ((0 : ℚ) - (1 / 1000) * (10 * 100))) ∧
      (0 : ℚ) - (1 / 1000) * (10 * 100) < 0 := by
  exact C10_retainer_decreases c10_sim 1
    { position_id := 1, index_id := "IDX", order_type := OrderType.BUY, quantity := 10,
      price := 100, timestamp := 0, status := OrderStatus.PENDING }
    0
    (by norm_num +decide [c10_sim, buy, check_rate_limit, simIDX, create_index,
      TradingSimulator.init, insertKV, lookupKV])
    rfl
    (by norm_num [c10_sim, buy, check_rate_limit, simIDX, create_index,
      TradingSimulator.init])
    (by norm_num) (by norm_num)
    (by norm_num +decide [c10_sim, buy, check_rate_limit, simIDX, create_index,
      TradingSimulator.init, insertKV, lookupKV, calculate_fillable_amount])
    (by norm_num +decide [c10_sim, buy, check_rate_limit, simIDX, create_index,
      TradingSimulator.init, insertKV, lookupKV])
    (by norm_num +decide [c10_sim, buy, check_rate_limit, simIDX, create_index,
      TradingSimulator.init, insertKV, lookupKV])

/-- Claim C4 (amended): the `total_cost` reported by `rebalance` is the
sum over ALL assets of the index (not only the symbols present in
`new_weights`) of `|NAV * weight - quantity * current_price| * fee_rate`,
where an asset absent from `new_weights` gets weight 0; symbols in
`new_weights` that are not in the index contribute nothing; NAV is the
pre-rebalance NAV. -/
theorem C4_rebalance_cost_amended :
    ∀ (s : TradingSimulator) (index_id : String) (w : List (String × ℚ)) (now : ℚ)
      (idx : Index) (s1 : TradingSimulator) (r : RebalanceReport),
      lookupKV s.indices index_id = some idx →
      rebalance now s index_id w = some (s1, r) →
      r.total_cost =
        (idx.assets.map (fun a =>
          |idx.calculate_nav * ((lookupKV w a.symbol).getD 0) - a.quantity * a.current_price|
            * (1 / 1000))).sum := by
  intro s index_id w now idx s1 r hlook hreb
  simp only [rebalance, hlook] at hreb
  split at hreb
  · exact absurd hreb (by simp)
  · split at hreb
    · exact absurd hreb (by simp)
    · have hr : r = { index_id := index_id,
                      old_weights := idx.assets.map (fun a =>
                        (a.symbol, a.quantity * a.current_price / idx.calculate_nav)),
                      new_weights := w,
                      total_cost := idx.calculate_rebalance_cost w,
                      timestamp := now } := by
        have := (Option.some.injEq _ _).mp hreb
        exact (Prod.mk.injEq _ _ _ _).mp this |>.2.symm
      rw [hr]
      show idx.calculate_rebalance_cost w = _
      rw [Index.calculate_rebalance_cost, foldl_add_sum, zero_add]

/-- Result of the C4/C6 witness rebalance of `simIDX` to the single
weight `A -> 1`. -/
def c4_result : TradingSimulator × RebalanceReport :=
  (rebalance 0 simIDX "IDX" [("A", 1)]).getD
    (TradingSimulator.init 0,
     { index_id := "", old_weights := [], new_weights := [], total_cost := 0, timestamp := 0 })

/-- The index stored in `simIDX` under `IDX`. -/
def simIDX_index : Index :=
  { id := "IDX",
    assets := [{ symbol := "A", quantity := 1, price_last_rebalance := 10, current_price := 10 }],
    last_rebalance_time := 0, creation_time := 0 }

/-- Witness for C4: the concrete rebalance of `simIDX` to weight
`A -> 1` succeeds and reports the amended cost formula. -/
theorem C4_rebalance_cost_amended_witness :
    lookupKV simIDX.indices "IDX" = some simIDX_index ∧
    rebalance 0 simIDX "IDX" [("A", 1)] = some c4_result ∧
    c4_result.2.total_cost =
      (simIDX_index.assets.map (fun a =>
        |simIDX_index.calculate_nav * ((lookupKV [("A", (1 : ℚ))] a.symbol).getD 0)
          - a.quantity * a.current_price| * (1 / 1000))).sum := by
  have h1 : lookupKV simIDX.indices "IDX" = some simIDX_index := by
    norm_num [simIDX, simIDX_index, create_index, TradingSimulator.init, insertKV, lookupKV]
  have h2 : rebalance 0 simIDX "IDX" [("A", 1)] = some c4_result := by
    norm_num +decide [c4_result, rebalance, simIDX, simIDX_index, create_index,
      TradingSimulator.init, insertKV, lookupKV, Index.calculate_nav,
      Index.calculate_rebalance_cost, rebalanceAsset]
  exact ⟨h1, h2, C4_rebalance_cost_amended simIDX "IDX" [("A", 1)] 0 simIDX_index
    c4_result.1 c4_result.2 h1 h2⟩

/-- NAV of a rebalanced asset list: when every asset has a weight entry
and a nonzero price, the post-rebalance market value is `nav` times the
sum of the looked-up weights. -/
theorem rebalanced_nav_aux (w : List (String × ℚ)) (nav : ℚ) :
    ∀ (l : List Asset),
      (∀ a ∈ l, a.current_price ≠ 0) →
      (∀ a ∈ l, (lookupKV w a.symbol).isSome) →
      ((l.map (rebalanceAsset nav w)).map (fun a => a.quantity * a.current_price)).sum
        = nav * (l.map (fun a => (lookupKV w a.symbol).getD 0)).sum := by
  intro l
  induction l with
  | nil => intro _ _; simp
  | cons a t ih =>
      intro hp hw
      obtain ⟨wt, hwt⟩ := Option.isSome_iff_exists.mp (hw a (List.mem_cons_self a t))
      have hpa : a.current_price ≠ 0 := hp a (List.mem_cons_self a t)
      have ht := ih (fun x hx => hp x (List.mem_cons_of_mem a hx))
        (fun x hx => hw x (List.mem_cons_of_mem a hx))
      simp only [List.map_cons, List.sum_cons, rebalanceAsset, hwt, ht,
        Option.getD_some]
      rw [div_mul_cancel₀ _ hpa]
      ring

/-- Claim C6: a successful rebalance whose `new_weights` assigns a weight
to every asset of the index, with positive prices and weights summing to
exactly 1, leaves the index NAV unchanged. -/
theorem C6_rebalance_preserves_nav :
    ∀ (s : TradingSimulator) (index_id : String) (w : List (String × ℚ)) (now : ℚ)
      (idx : Index) (s1 : TradingSimulator) (r : RebalanceReport),
      lookupKV s.indices index_id = some idx →
      (∀ a ∈ idx.assets, 0 < a.current_price) →
      (∀ a ∈ idx.assets, (lookupKV w a.symbol).isSome) →
      (idx.assets.map (fun a => (lookupKV w a.symbol).getD 0)).sum = 1 →
      rebalance now s index_id w = some (s1, r) →
      (lookupKV s1.indices index_id).map Index.calculate_nav =
        some idx.calculate_nav := by
  intro s index_id w now idx s1 r hlook hp hw hsum hreb
  simp only [rebalance, hlook] at hreb
  split at hreb
  · exact absurd hreb (by simp)
  · split at hreb
    · exact absurd hreb (by simp)
    · have hs1 : s1.indices = insertKV s.indices index_id
          { idx with assets := idx.assets.map (rebalanceAsset idx.calculate_nav w),
                     last_rebalance_time := now } := by
        have h := (Option.some.injEq _ _).mp hreb
        have h1 := (Prod.mk.injEq _ _ _ _).mp h |>.1
        rw [← h1]
      rw [hs1]
      simp only [lookupKV_insert_self, Option.map_some']
      congr 1
      show ((idx.assets.map (rebalanceAsset idx.calculate_nav w)).map
        (fun a => a.quantity * a.current_price)).sum = idx.calculate_nav
      rw [rebalanced_nav_aux w idx.calculate_nav idx.assets
        (fun a ha => ne_of_gt (hp a ha)) hw, hsum, mul_one]

/-- The full weight map `A -> 1/2, B -> 1/4, C -> 1/4` used to witness
C6 on the three-asset example index (NAV 30). -/
def c6_weights : List (String × ℚ) :=
  [("A", 1 / 2), ("B", 1 / 4), ("C", 1 / 4)]

/-- Result of the C6 witness rebalance of the example index. -/
def c6_result : TradingSimulator × RebalanceReport :=
  (rebalance 0 exSim "ETF3" c6_weights).getD
    (TradingSimulator.init 0,
     { index_id := "", old_weights := [], new_weights := [], total_cost := 0, timestamp := 0 })

/-- Witness for C6: rebalancing the example index to the full weight map
summing to 1 keeps its NAV at 30. -/
theorem C6_rebalance_preserves_nav_witness :
    (exIndex.assets.map (fun a => (lookupKV c6_weights a.symbol).getD 0)).sum = 1 ∧
    rebalance 0 exSim "ETF3" c6_weights = some c6_result ∧
    (lookupKV c6_result.1.indices "ETF3").map Index.calculate_nav =
      some exIndex.calculate_nav := by
  have hlook : lookupKV exSim.indices "ETF3" = some exIndex := by
    norm_num +decide [exSim, exIndex, exAssets, set_liquidity_info, create_index,
      TradingSimulator.init, insertKV, lookupKV]
  have hsum : (exIndex.assets.map (fun a => (lookupKV c6_weights a.symbol).getD 0)).sum = 1 := by
    norm_num +decide [exIndex, exAssets, create_index, TradingSimulator.init,
      c6_weights, lookupKV]
  have hres : rebalance 0 exSim "ETF3" c6_weights = some c6_result := by
    norm_num +decide [c6_result, rebalance, exSim, exIndex, exAssets, set_liquidity_info,
      create_index, TradingSimulator.init, insertKV, lookupKV, Index.calculate_nav,
      Index.calculate_rebalance_cost, rebalanceAsset, c6_weights]
  refine ⟨hsum, hres, ?_⟩
  exact C6_rebalance_preserves_nav exSim "ETF3" c6_weights 0 exIndex c6_result.1 c6_result.2
    hlook
    (by intro a ha
        revert ha
        norm_num +decide [exIndex, exAssets, create_index, TradingSimulator.init]
        rintro (rfl | rfl | rfl) <;> norm_num)
    (by intro a ha
        revert ha
        norm_num +decide [exIndex, exAssets, create_index, TradingSimulator.init]
        rintro (rfl | rfl | rfl) <;> norm_num +decide [c6_weights, lookupKV])
    hsum hres

/-- Fill fraction following the spec's words: the minimum over the
index's constrained assets of `max_fillable_notional / (requested_quantity
* current_price * asset.quantity)`, capped at 1; unconstrained assets
impose no limit. -/
def specFillFraction (liq : List (String × LiquidityInfo)) (idx : Index)
    (quantity : ℚ) : ℚ :=
  (idx.assets.filterMap (fun a =>
    (lookupKV liq a.symbol).map (fun info =>
      info.max_fillable / (quantity * a.current_price * a.quantity)))).foldl min 1

/-- The code's fold over assets computes the min of the accumulator with
every constrained ratio, provided every constrained asset has positive
notional (ratios of uncapped assets are at least 1 and cannot lower an
accumulator that is at most 1). -/
theorem fillableAux_eq_spec (liq : List (String × LiquidityInfo)) (q : ℚ) :
    ∀ (l : List Asset) (m : ℚ), m ≤ 1 →
      (∀ a ∈ l, (lookupKV liq a.symbol).isSome → 0 < q * a.current_price * a.quantity) →
      fillableAux liq q l m =
        some ((l.filterMap (fun a => (lookupKV liq a.symbol).map (fun info =>
          info.max_fillable / (q * a.current_price * a.quantity)))).foldl min m) := by
  intro l
  induction l with
  | nil => intro m _ _; simp [fillableAux]
  | cons a t ih =>
      intro m hm hpos
      have hrest : ∀ x ∈ t, (lookupKV liq x.symbol).isSome →
          0 < q * x.current_price * x.quantity :=
        fun x hx => hpos x (List.mem_cons_of_mem a hx)
      cases hl : lookupKV liq a.symbol with
      | none =>
          simp only [List.filterMap_cons, hl, Option.map_none']
          simp only [fillableAux, hl]
          exact ih m hm hrest
      | some info =>
          have hpa : 0 < q * a.current_price * a.quantity :=
            hpos a (List.mem_cons_self a t) (by simp [hl])
          simp only [List.filterMap_cons, hl, Option.map_some']
          by_cases hgt : q * a.current_price * a.quantity > info.max_fillable
          · simp only [fillableAux, hl, if_pos hgt, if_neg (ne_of_gt hpa)]
            rw [List.foldl_cons]
            exact ih (min m (info.max_fillable / (q * a.current_price * a.quantity)))
              (le_trans (min_le_left _ _) hm) hrest
          · have h1r : (1 : ℚ) ≤ info.max_fillable / (q * a.current_price * a.quantity) :=
              (one_le_div hpa).mpr (not_lt.mp hgt)
            simp only [fillableAux, hl, if_neg hgt]
            rw [List.foldl_cons, min_eq_left (le_trans hm h1r)]
            exact ih m hm hrest

/-- Claim C2 (amended): `_calculate_fillable_amount` returns the
requested quantity times the spec's minimum-ratio fill fraction whenever
every constrained asset has positive notional; on the spec's concrete
example the fraction is 1/50 (fill_percentage 2, not 20), with C the
binding asset. -/
theorem C2_fillable_fraction_amended :
    (∀ (s : TradingSimulator) (index_id : String) (q : ℚ)
       (liq : List (String × LiquidityInfo)) (idx : Index),
       lookupKV s.liquidity_info index_id = some liq →
       lookupKV s.indices index_id = some idx →
       (∀ a ∈ idx.assets, (lookupKV liq a.symbol).isSome →
         0 < q * a.current_price * a.quantity) →
       calculate_fillable_amount s index_id q = some (q * specFillFraction liq idx q)) ∧
    specFillFraction exLiq exIndex 1000000 = 1 / 50 ∧
    (1 : ℚ) / 50 * 100 = 2 := by
  refine ⟨?_, ?_, by norm_num⟩
  · intro s index_id q liq idx hliq hidx hpos
    simp only [calculate_fillable_amount, hliq, hidx]
    rw [fillableAux_eq_spec liq q idx.assets 1 le_rfl hpos]
    simp [specFillFraction]
  · norm_num +decide [specFillFraction, exLiq, exIndex, exAssets, create_index,
      TradingSimulator.init, lookupKV, min_def, List.filterMap_cons, List.filterMap_nil,
      List.foldl_cons, List.foldl_nil]

/-- Witness for C2: the amended formula applied to the spec's concrete
example, with its hypotheses discharged there. -/
theorem C2_fillable_fraction_amended_witness :
    calculate_fillable_amount exSim "ETF3" 1000000 =
      some (1000000 * specFillFraction exLiq exIndex 1000000) := by
  exact C2_fillable_fraction_amended.1 exSim "ETF3" 1000000 exLiq exIndex
    (by norm_num +decide [exSim, exLiq, exAssets, set_liquidity_info, create_index,
      TradingSimulator.init, insertKV, lookupKV])
    (by norm_num +decide [exSim, exIndex, exAssets, set_liquidity_info, create_index,
      TradingSimulator.init, insertKV, lookupKV])
    (by intro a ha _
        revert ha
        norm_num +decide [exIndex, exAssets, create_index, TradingSimulator.init]
        rintro (rfl | rfl | rfl) <;> norm_num)

/-- Sequential submission of a batch of `(position_id, index_id,
quantity, price)` buy requests through `buy`, collecting the returned
orders in submission order. -/
def submitMany (now : ℚ) : TradingSimulator → List (Nat × String × ℚ × ℚ) →
    TradingSimulator × List Order
  | s, [] => (s, [])
  | s, (pid, iid, q, p) :: rest =>
      let r1 := buy now s pid iid q p
      let r2 := submitMany now r1.1 rest
      (r2.1, r1.2 :: r2.2)

/-- A `buy` with positive quantity, inside the current window and below
capacity, returns a PENDING order and increments only the window counter
among the rate-limit fields. -/
theorem buy_admit (now : ℚ) (s : TradingSimulator) (pid : Nat) (iid : String) (q p : ℚ)
    (hq : 0 < q) (hw : now - s.last_execution_time ≤ s.rate_limit_window)
    (hc : s.order_count_in_window < s.rate_limit_orders) :
    (buy now s pid iid q p).2.status = OrderStatus.PENDING ∧
    (buy now s pid iid q p).1.order_count_in_window = s.order_count_in_window + 1 ∧
    (buy now s pid iid q p).1.last_execution_time = s.last_execution_time ∧
    (buy now s pid iid q p).1.rate_limit_window = s.rate_limit_window ∧
    (buy now s pid iid q p).1.rate_limit_orders = s.rate_limit_orders := by
  simp [buy, not_le.mpr hq, check_rate_limit_admit now s hw hc]

/-- A `buy` with positive quantity, inside the current window and at
capacity, returns a REJECTED order and leaves all rate-limit fields
(including the counter) unchanged. -/
theorem buy_deny (now : ℚ) (s : TradingSimulator) (pid : Nat) (iid : String) (q p : ℚ)
    (hq : 0 < q) (hw : now - s.last_execution_time ≤ s.rate_limit_window)
    (hc : s.rate_limit_orders ≤ s.order_count_in_window) :
    (buy now s pid iid q p).2.status = OrderStatus.REJECTED ∧
    (buy now s pid iid q p).1.order_count_in_window = s.order_count_in_window ∧
    (buy now s pid iid q p).1.last_execution_time = s.last_execution_time ∧
    (buy now s pid iid q p).1.rate_limit_window = s.rate_limit_window ∧
    (buy now s pid iid q p).1.rate_limit_orders = s.rate_limit_orders := by
  simp [buy, not_le.mpr hq, check_rate_limit_deny now s hw hc]

/-- The statuses coming out of a batch of positive-quantity submissions
inside one window: position `i` of the batch is admitted as PENDING
exactly while the running counter stays below capacity, and REJECTED
afterwards. -/
theorem submitMany_statuses (now : ℚ) :
    ∀ (reqs : List (Nat × String × ℚ × ℚ)) (s : TradingSimulator),
      (∀ r ∈ reqs, 0 < r.2.2.1) →
      now - s.last_execution_time ≤ s.rate_limit_window →
      ((submitMany now s reqs).2.map Order.status) =
        (List.range reqs.length).map (fun i =>
          if s.order_count_in_window + i < s.rate_limit_orders then
            OrderStatus.PENDING else OrderStatus.REJECTED) := by
  intro reqs
  induction reqs with
  | nil => intro s _ _; simp [submitMany]
  | cons r rest ih =>
      obtain ⟨pid, iid, q, p⟩ := r
      intro s hq hw
      have hq0 : 0 < q := hq _ (List.mem_cons_self _ _)
      have hqrest : ∀ x ∈ rest, 0 < x.2.2.1 :=
        fun x hx => hq x (List.mem_cons_of_mem _ hx)
      by_cases hc : s.order_count_in_window < s.rate_limit_orders
      · obtain ⟨hst, hcnt, hlast, hwin, hcap⟩ := buy_admit now s pid iid q p hq0 hw hc
        simp only [submitMany, List.map_cons, hst]
        rw [ih (buy now s pid iid q p).1 hqrest (by rw [hlast, hwin]; exact hw),
          hcnt, hcap, List.length_cons, List.range_succ_eq_map]
        simp only [List.map_cons, List.map_map, Function.comp, Nat.add_zero, if_pos hc]
        have harith : ∀ i : Nat,
            s.order_count_in_window + 1 + i = s.order_count_in_window + (i + 1) := by
          intro i; omega
        simp [harith, Nat.succ_eq_add_one]
      · push_neg at hc
        obtain ⟨hst, hcnt, hlast, hwin, hcap⟩ := buy_deny now s pid iid q p hq0 hw hc
        simp only [submitMany, List.map_cons, hst]
        rw [ih (buy now s pid iid q p).1 hqrest (by rw [hlast, hwin]; exact hw),
          hcnt, hcap, List.length_cons, List.range_succ_eq_map]
        have hall : ∀ i : Nat,
            (if s.order_count_in_window + i < s.rate_limit_orders then
              OrderStatus.PENDING else OrderStatus.REJECTED) = OrderStatus.REJECTED :=
          fun i => if_neg (by omega)
        simp [List.map_map, Function.comp, hall]
        have hconst : ∀ (n : Nat),
            List.map ((fun _ => OrderStatus.REJECTED) ∘ Nat.succ) (List.range n) =
              List.replicate n OrderStatus.REJECTED := by
          intro n
          induction n with
          | zero => rfl
          | succ m ihm =>
              rw [List.range_succ, List.map_append, ihm, List.replicate_succ']
              rfl
        rw [hconst]

/-- Counting the admitted positions of a fresh window of capacity `cap`
among `cap + k` submissions. -/
theorem countP_range_lt (cap k : Nat) :
    (List.range (cap + k)).countP (fun i => decide (i < cap)) = cap := by
  induction k with
  | zero =>
      have h : ∀ a ∈ List.range (cap + 0), (fun i => decide (i < cap)) a = true := by
        intro a ha
        simpa using List.mem_range.mp ha
      rw [List.countP_eq_length.mpr h, List.length_range]
      omega
  | succ n ih =>
      rw [show cap + (n + 1) = (cap + n) + 1 from rfl, List.range_succ,
        List.countP_append, ih, List.countP_cons]
      have h : ¬ (cap + n < cap) := by omega
      simp [h]

/-- Counting the denied positions of a fresh window of capacity `cap`
among `cap + k` submissions. -/
theorem countP_range_ge (cap k : Nat) :
    (List.range (cap + k)).countP (fun i => decide (¬ i < cap)) = k := by
  induction k with
  | zero =>
      have h : ∀ a ∈ List.range (cap + 0), ¬ ((fun i => decide (¬ i < cap)) a = true) := by
        intro a ha
        simpa using List.mem_range.mp ha
      rw [List.countP_eq_zero.mpr h]
  | succ n ih =>
      rw [show cap + (n + 1) = (cap + n) + 1 from rfl, List.range_succ,
        List.countP_append, ih, List.countP_cons]
      have h : ¬ (cap + n < cap) := by omega
      simp [h]

/-- Claim C5: submitting `capacity + k` positive-quantity buys from a
fresh window counter, all inside one rate-limit window, yields exactly
`capacity` non-REJECTED orders and `k` REJECTED orders; and a denied
`_check_rate_limit` call returns false without changing any state, in
particular without incrementing the window counter. -/
theorem C5_rate_limiter_capacity :
    (∀ (s : TradingSimulator) (now : ℚ) (reqs : List (Nat × String × ℚ × ℚ)) (k : Nat),
       s.order_count_in_window = 0 →
       now - s.last_execution_time ≤ s.rate_limit_window →
       (∀ r ∈ reqs, 0 < r.2.2.1) →
       reqs.length = s.rate_limit_orders + k →
       (submitMany now s reqs).2.countP
           (fun o => decide (o.status ≠ OrderStatus.REJECTED)) = s.rate_limit_orders ∧
       (submitMany now s reqs).2.countP
           (fun o => decide (o.status = OrderStatus.REJECTED)) = k) ∧
    (∀ (s : TradingSimulator) (now : ℚ),
       now - s.last_execution_time ≤ s.rate_limit_window →
       s.rate_limit_orders ≤ s.order_count_in_window →
       check_rate_limit now s = (false, s)) := by
  constructor
  · intro s now reqs k h0 hw hq hlen
    have hst := submitMany_statuses now reqs s hq hw
    rw [h0] at hst
    simp only [Nat.zero_add] at hst
    have key : ∀ (pred : OrderStatus → Bool),
        (submitMany now s reqs).2.countP (fun o => pred o.status) =
          (List.range reqs.length).countP
            (fun i => pred (if i < s.rate_limit_orders then
              OrderStatus.PENDING else OrderStatus.REJECTED)) := by
      intro pred
      have h1 : (submitMany now s reqs).2.countP (fun o => pred o.status) =
          ((submitMany now s reqs).2.map Order.status).countP pred := by
        rw [List.countP_map]
        rfl
      rw [h1, hst, List.countP_map]
      rfl
    constructor
    · rw [key (fun st => decide (st ≠ OrderStatus.REJECTED)), hlen]
      have hfe : (fun i => decide ((if i < s.rate_limit_orders then
            OrderStatus.PENDING else OrderStatus.REJECTED) ≠ OrderStatus.REJECTED)) =
          (fun i => decide (i < s.rate_limit_orders)) := by
        funext i
        by_cases h : i < s.rate_limit_orders <;> simp [h]
      rw [hfe, countP_range_lt]
    · rw [key (fun st => decide (st = OrderStatus.REJECTED)), hlen]
      have hfe : (fun i => decide ((if i < s.rate_limit_orders then
            OrderStatus.PENDING else OrderStatus.REJECTED) = OrderStatus.REJECTED)) =
          (fun i => decide (¬ i < s.rate_limit_orders)) := by
        funext i
        by_cases h : i < s.rate_limit_orders <;> simp [h]
      rw [hfe, countP_range_ge]
  · intro s now hw hc
    exact check_rate_limit_deny now s hw hc

/-- A fresh simulator whose window capacity is lowered to 2 orders, to
witness the rate limiter on a 3-order burst. -/
def c5_sim : TradingSimulator :=
  { TradingSimulator.init 0 with rate_limit_orders := 2 }

/-- Three one-unit buy requests submitted in one window. -/
def c5_reqs : List (Nat × String × ℚ × ℚ) :=
  [(1, "I", 1, 1), (2, "I", 1, 1), (3, "I", 1, 1)]

/-- Witness for C5: a burst of capacity + 1 = 3 orders on the concrete
simulator yields 2 non-REJECTED and 1 REJECTED order, and a denied
admission call at a full window returns false with the state unchanged. -/
theorem C5_rate_limiter_capacity_witness :
    ((submitMany 0 c5_sim c5_reqs).2.countP
        (fun o => decide (o.status ≠ OrderStatus.REJECTED)) = 2 ∧
     (submitMany 0 c5_sim c5_reqs).2.countP
        (fun o => decide (o.status = OrderStatus.REJECTED)) = 1) ∧
    check_rate_limit 0 { c5_sim with order_count_in_window := 2 } =
      (false, { c5_sim with order_count_in_window := 2 }) := by
  constructor
  · have h := C5_rate_limiter_capacity.1 c5_sim 0 c5_reqs 1 rfl
      (by norm_num [c5_sim, TradingSimulator.init])
      (by intro r hr
          simp only [c5_reqs, List.mem_cons, List.not_mem_nil, or_false] at hr
          rcases hr with rfl | rfl | rfl <;> norm_num)
      (by norm_num [c5_reqs, c5_sim, TradingSimulator.init])
    simpa [c5_sim, TradingSimulator.init] using h
  · exact C5_rate_limiter_capacity.2 { c5_sim with order_count_in_window := 2 } 0
      (by norm_num [c5_sim, TradingSimulator.init])
      (by norm_num [c5_sim, TradingSimulator.init])

end ETF
